import Mathlib

set_option maxRecDepth 100000

set_option maxHeartbeats 4000000

/-!
Shallow embedding of the TurboStitchGIF header-only GIF decoder (src/gif.h),
in its default configuration: GIF_MODE_TURBO not defined (the "safe" LZW
dictionary representation), GIF_MAX_WIDTH = 480, GIF_MAX_COLORS = 256,
GIF_MAX_CODE_SIZE = 12.

Modelling conventions:
- machine integers are modelled as Nat (with explicit `% 2^w` where the C code
  truncates), `loop_count` (an `int16_t`) as Int;
- byte buffers owned by the caller (scratch regions, the output canvas, the
  palettes) are modelled as total functions `Nat → Nat` updated pointwise;
  bytes the C code never initialises are modelled as 0;
- the input GIF is an immutable `List Nat` of bytes;
- the error callback is modelled by accumulating the reported error codes in
  the field `reported` (most recent last);
- the unbounded C loops (`while` loops of the LZW decoder and of the container
  driver) are modelled with an explicit fuel parameter; a distinguished result
  code 99 marks fuel exhaustion, which no theorem below ever relies on.
-/

-- Constants from gif.h (default configuration).

def GIF_MAX_WIDTH : Nat := 480

def GIF_MAX_COLORS : Nat := 256

def GIF_MAX_CODE_SIZE : Nat := 12

def GIF_LZW_CHUNK_SIZE : Nat := 255

def GIF_LZW_BASE_BUF_SIZE : Nat := 6 * GIF_LZW_CHUNK_SIZE

def GIF_LZW_TABLE_ENTRIES : Nat := 2 ^ GIF_MAX_CODE_SIZE

def GIF_SCRATCH_LZW_TABLE_SIZE : Nat := GIF_LZW_TABLE_ENTRIES * 2

def GIF_SCRATCH_LZW_PIXELS_SIZE : Nat := GIF_LZW_TABLE_ENTRIES * 2

def GIF_SCRATCH_BUFFER_REQUIRED_SIZE : Nat :=
  GIF_LZW_BASE_BUF_SIZE + GIF_SCRATCH_LZW_TABLE_SIZE + GIF_SCRATCH_LZW_PIXELS_SIZE + GIF_MAX_WIDTH

-- Error codes (the anonymous enum of gif.h, in declaration order).

def GIF_SUCCESS : Nat := 0

def GIF_ERROR_DECODE : Nat := 1

def GIF_ERROR_INVALID_PARAM : Nat := 2

def GIF_ERROR_BAD_FILE : Nat := 3

def GIF_ERROR_EARLY_EOF : Nat := 4

def GIF_ERROR_NO_FRAME : Nat := 5

def GIF_ERROR_BUFFER_TOO_SMALL : Nat := 6

def GIF_ERROR_INVALID_FRAME_DIMENSIONS : Nat := 7

def GIF_ERROR_UNSUPPORTED_COLOR_DEPTH : Nat := 8

/-- The decoder context (struct GIF_Context of gif.h, safe mode). Pointer
fields into the caller scratch region become function-valued buffers;
`active_palette_colors` (a pointer to either the global or the local palette)
becomes the selector `active_is_local`. -/
structure GIF_Context where
  gif_data : List Nat
  gif_size : Nat
  current_pos : Nat
  canvas_width : Nat
  canvas_height : Nat
  frame_width : Nat
  frame_height : Nat
  frame_x_off : Nat
  frame_y_off : Nat
  frame_delay_ms : Nat
  loop_count : Int
  background_index : Nat
  transparent_index : Nat
  has_transparency : Nat
  disposal_method : Nat
  ucGIFBits : Nat
  global_palette_colors : Nat → Nat
  local_palette_colors : Nat → Nat
  active_is_local : Bool
  lzw_code_start_size : Nat
  lzw_end_of_frame : Bool
  lzw_read_offset : Nat
  lzw_data_size : Nat
  scratch_lzw_buffer : Nat → Nat
  scratch_lzw_table : Nat → Nat
  scratch_lzw_pixels : Nat → Nat
  scratch_line_buffer : Nat → Nat
  anim_start_pos : Nat
  reported : List Nat

/-- The all-zero context produced by `memset(ctx, 0, sizeof(GIF_Context))`. -/
def gif_zero_context : GIF_Context where
  gif_data := []
  gif_size := 0
  current_pos := 0
  canvas_width := 0
  canvas_height := 0
  frame_width := 0
  frame_height := 0
  frame_x_off := 0
  frame_y_off := 0
  frame_delay_ms := 0
  loop_count := 0
  background_index := 0
  transparent_index := 0
  has_transparency := 0
  disposal_method := 0
  ucGIFBits := 0
  global_palette_colors := fun _ => 0
  local_palette_colors := fun _ => 0
  active_is_local := false
  lzw_code_start_size := 0
  lzw_end_of_frame := false
  lzw_read_offset := 0
  lzw_data_size := 0
  scratch_lzw_buffer := fun _ => 0
  scratch_lzw_table := fun _ => 0
  scratch_lzw_pixels := fun _ => 0
  scratch_line_buffer := fun _ => 0
  anim_start_pos := 0
  reported := []

/-- gif_report_error: the error callback is modelled by appending the error
code to `reported`. -/
def gif_report_error (ctx : GIF_Context) (error_code : Nat) : GIF_Context :=
  { ctx with reported := ctx.reported ++ [error_code] }

/-- gif_read_u16_le: two bytes, little endian, read from a byte buffer at a
given offset (out-of-range bytes read as 0). -/
def gif_read_u16_le (bytes : List Nat) (off : Nat) : Nat :=
  bytes.getD off 0 + 256 * bytes.getD (off + 1) 0

/-- Overwrite the bytes `[off, off + l.length)` of buffer `f` with the list
`l` (models memcpy into a caller buffer). -/
def writeListAt (f : Nat → Nat) (off : Nat) (l : List Nat) : Nat → Nat :=
  fun j => if off ≤ j ∧ j < off + l.length then l.getD (j - off) 0 else f j

/-- gif_read_bytes_internal: copy up to `len` bytes from the input at
`current_pos`, clamped to the input size; returns the number of bytes
actually read, the bytes themselves, and the advanced context. -/
def gif_read_bytes_internal (ctx : GIF_Context) (len : Nat) : Nat × List Nat × GIF_Context :=
  let bytes_to_read := if ctx.gif_size < ctx.current_pos + len
    then ctx.gif_size - ctx.current_pos else len
  (bytes_to_read, (ctx.gif_data.drop ctx.current_pos).take bytes_to_read,
    { ctx with current_pos := ctx.current_pos + bytes_to_read })

/-- gif_skip_bytes_internal: advance the cursor by `len`, saturating at the
input size; never reports an error. -/
def gif_skip_bytes_internal (ctx : GIF_Context) (len : Nat) : GIF_Context :=
  if ctx.current_pos + len ≤ ctx.gif_size
  then { ctx with current_pos := ctx.current_pos + len }
  else { ctx with current_pos := ctx.gif_size }

/-- gif_read_byte_internal: read one byte and advance; at or past the end of
the input, report EarlyEof via the callback and return 0 without advancing. -/
def gif_read_byte_internal (ctx : GIF_Context) : Nat × GIF_Context :=
  if ctx.current_pos < ctx.gif_size then
    (ctx.gif_data.getD ctx.current_pos 0, { ctx with current_pos := ctx.current_pos + 1 })
  else
    (0, gif_report_error ctx GIF_ERROR_EARLY_EOF)

/-- A concrete context used to instantiate the hypothesis-bearing theorems. -/
def gif_ctx_example : GIF_Context :=
  { gif_zero_context with gif_data := [10, 20, 30], gif_size := 3, current_pos := 1 }

/-- A concrete context whose cursor sits at the end of the input. -/
def gif_ctx_eof_example : GIF_Context :=
  { gif_zero_context with gif_data := [10, 20], gif_size := 2, current_pos := 2 }

/-- gif_discard_sub_blocks, inner do-while loop with fuel. Each sub-block is a
length byte followed by that many payload bytes; a zero length terminates. At
the end of the input the length byte reads as 0 (with an EarlyEof report from
the byte reader) and the loop additionally reports EarlyEof and returns. -/
def gif_discard_sub_blocks_go : Nat → GIF_Context → GIF_Context
  | 0, ctx => ctx
  | fuel + 1, ctx =>
    let r := gif_read_byte_internal ctx
    if r.1 = 0 ∧ r.2.gif_size ≤ r.2.current_pos then
      gif_report_error r.2 GIF_ERROR_EARLY_EOF
    else
      let ctx2 := gif_skip_bytes_internal r.2 r.1
      if r.1 ≠ 0 then gif_discard_sub_blocks_go fuel ctx2 else ctx2

/-- gif_discard_sub_blocks: the fuel `gif_size + 1 - current_pos` dominates
the number of loop iterations, since every iteration that continues consumes
at least one input byte. -/
def gif_discard_sub_blocks (ctx : GIF_Context) : GIF_Context :=
  gif_discard_sub_blocks_go (ctx.gif_size + 1 - ctx.current_pos) ctx

/-- gif_read_graphic_control_ext: block size (skipped), packed byte (disposal
in bits 2-3 of the shifted value, transparency in bit 0), delay in 1/100 s
stored times 10 as milliseconds into the uint16 field, transparent index,
block terminator (skipped). -/
def gif_read_graphic_control_ext (ctx : GIF_Context) : GIF_Context :=
  let ctx := gif_skip_bytes_internal ctx 1
  let r := gif_read_byte_internal ctx
  let rdit := r.1
  let ctx := { r.2 with
    disposal_method := (rdit >>> 2) &&& 3,
    has_transparency := rdit &&& 1 }
  let ctx := { ctx with
    frame_delay_ms := (gif_read_u16_le ctx.gif_data ctx.current_pos * 10) % 65536 }
  let ctx := gif_skip_bytes_internal ctx 2
  let r2 := gif_read_byte_internal ctx
  let ctx := { r2.2 with transparent_index := r2.1 }
  gif_skip_bytes_internal ctx 1

/-- Conversion of a u16 value into the int16_t field `loop_count`
(two's-complement reinterpretation, as on every supported platform). -/
def gif_int16_of_u16 (v : Nat) : Int :=
  if v < 32768 then (v : Int) else (v : Int) - 65536

/-- gif_read_application_ext: an 11-byte application block whose first data
sub-block has size 3 stores the 16-bit loop count (the application identifier
itself is read but not checked); all remaining sub-blocks are discarded. -/
def gif_read_application_ext (ctx : GIF_Context) : GIF_Context :=
  let r := gif_read_byte_internal ctx
  if r.1 = 11 then
    let r1 := gif_read_bytes_internal r.2 8
    let r2 := gif_read_bytes_internal r1.2.2 3
    let r3 := gif_read_byte_internal r2.2.2
    if r3.1 ≠ 3 then
      gif_discard_sub_blocks (gif_report_error r3.2 GIF_ERROR_BAD_FILE)
    else
      let ctx := gif_skip_bytes_internal r3.2 1
      let ctx := { ctx with
        loop_count := gif_int16_of_u16 (gif_read_u16_le ctx.gif_data ctx.current_pos) }
      let ctx := gif_skip_bytes_internal ctx 2
      gif_discard_sub_blocks ctx
  else
    gif_discard_sub_blocks r.2

/-- gif_read_ext: dispatch on the extension label; 0xF9 is graphic control,
0xFF is application; everything else (including plain text 0x01 and comment
0xFE) reports a Decode error through the callback and is discarded. -/
def gif_read_ext (ctx : GIF_Context) : GIF_Context :=
  let r := gif_read_byte_internal ctx
  if r.1 = 0xF9 then gif_read_graphic_control_ext r.2
  else if r.1 = 0xFF then gif_read_application_ext r.2
  else gif_discard_sub_blocks (gif_report_error r.2 GIF_ERROR_DECODE)

/-- gif_rewind: reset the cursor to the first frame and clear the LZW
sub-block buffer state. -/
def gif_rewind (ctx : GIF_Context) : GIF_Context :=
  { ctx with
    current_pos := ctx.anim_start_pos,
    lzw_end_of_frame := false,
    lzw_read_offset := 0,
    lzw_data_size := 0 }

/-- The trailer decision of gif_next_frame (taken both at entry when the
cursor is at the end of the input and on reading the 0x3B trailer byte):
`some lc2` means rewind and keep playing with the new loop count, `none`
means the animation is finished (return 0). -/
def gif_trailer_step (lc : Int) : Option Int :=
  if lc = -1 ∨ lc > 0 then some (if lc > 0 then lc - 1 else lc) else none

/-- Total number of playbacks of an animation whose loop count is `lc` when
each playback ends at the trailer decision `gif_trailer_step`: `some n` when
the animation finishes after `n` playbacks within `fuel` trailer visits. -/
def gif_plays_until_done : Nat → Int → Option Nat
  | 0, _ => none
  | fuel + 1, lc =>
    match gif_trailer_step lc with
    | none => some 1
    | some lc2 => (gif_plays_until_done fuel lc2).map (· + 1)

/-- Inner block-reading loop of gif_get_more_lzw_data. `c` carries the last
block-length byte (the C local `c`, modelled as 0 when the loop body never
executes, where the C reads an uninitialized stack byte). Each continuing
iteration consumes at least one input byte, so the caller-supplied fuel
`gif_size + 1 - current_pos` always suffices. -/
def gif_lzw_fill : Nat → Nat → GIF_Context → Bool × GIF_Context
  | fuel, c, ctx =>
    if ctx.lzw_data_size < GIF_LZW_BASE_BUF_SIZE - GIF_LZW_CHUNK_SIZE
        ∧ ctx.current_pos < ctx.gif_size then
      match fuel with
      | 0 => (false, ctx)
      | fuel + 1 =>
        let r := gif_read_byte_internal ctx
        if r.1 = 0 then
          (true, { r.2 with lzw_end_of_frame := true })
        else
          let rb := gif_read_bytes_internal r.2 r.1
          let ctx2 := { rb.2.2 with
            scratch_lzw_buffer := writeListAt rb.2.2.scratch_lzw_buffer rb.2.2.lzw_data_size rb.2.1,
            lzw_data_size := rb.2.2.lzw_data_size + rb.1 }
          if rb.1 < r.1 then
            (false, gif_report_error ctx2 GIF_ERROR_EARLY_EOF)
          else
            gif_lzw_fill fuel r.1 ctx2
    else
      (decide (c ≠ 0) || ctx.lzw_end_of_frame, ctx)

/-- gif_get_more_lzw_data: if the end-of-frame terminator was already seen,
succeed immediately; otherwise compact the unread bytes to the front of the
sub-block buffer and pull further sub-blocks until the buffer is sufficiently
full, the 0-length terminator is seen, or the input ends. -/
def gif_get_more_lzw_data (ctx : GIF_Context) : Bool × GIF_Context :=
  if ctx.lzw_end_of_frame then
    (true, ctx)
  else
    let bytes_in_buffer := ctx.lzw_data_size - ctx.lzw_read_offset
    let ctx :=
      if 0 < ctx.lzw_read_offset then
        { ctx with
          scratch_lzw_buffer := fun j =>
            if j < bytes_in_buffer then ctx.scratch_lzw_buffer (j + ctx.lzw_read_offset)
            else ctx.scratch_lzw_buffer j,
          lzw_data_size := bytes_in_buffer,
          lzw_read_offset := 0 }
      else ctx
    gif_lzw_fill (ctx.gif_size + 1 - ctx.current_pos) 0 ctx

/-- Four-byte little-endian load from the sub-block buffer (the
`memcpy(&ulBits, p, sizeof(uint32_t))` of the GET_LZW_CODE macro). -/
def gif_read_u32_buf (buf : Nat → Nat) (off : Nat) : Nat :=
  buf off + 256 * buf (off + 1) + 65536 * buf (off + 2) + 16777216 * buf (off + 3)

/-- One expansion of the GET_LZW_CODE macro. Given the current code size,
mask and end-of-information code together with the 32-bit accumulator and bit
cursor, produce the pulled code and the updated accumulator, bit cursor and
context. When fewer than `codesize` bits remain in the accumulator the
consumed whole bytes are released and the sub-block buffer refilled; a failed
refill yields the end code without advancing the bit cursor. -/
def gif_get_lzw_code (codesize sMask eoi_code ulBits bitnum : Nat) (ctx : GIF_Context) :
    Nat × Nat × Nat × GIF_Context :=
  if (bitnum : Int) > 32 - (codesize : Int) then
    let ctx := { ctx with lzw_read_offset := ctx.lzw_read_offset + bitnum / 8 }
    let bitnum := bitnum % 8
    let r := gif_get_more_lzw_data ctx
    if !r.1 then
      (eoi_code, ulBits, bitnum, r.2)
    else
      let ulBits := gif_read_u32_buf r.2.scratch_lzw_buffer r.2.lzw_read_offset
      (((ulBits >>> bitnum) &&& sMask) % 65536, ulBits, bitnum + codesize, r.2)
  else
    (((ulBits >>> bitnum) &&& sMask) % 65536, ulBits, bitnum + codesize, ctx)

/-- The safe-mode dictionary walk: starting from `code`, follow the
prefix links in `lzw_table` (0xFFFF ends a chain), collecting the suffix
bytes from `lzw_pixels` front-most last; at most `slots` (= GIF_MAX_WIDTH,
the size of the temporary line buffer) bytes are collected. Returns the
expanded byte string exactly as the C code copies it out of
`temp_line_buf + temp_idx`. -/
def gif_lzw_walk (table pixels : Nat → Nat) : Nat → Nat → List Nat → List Nat
  | _, 0, acc => acc
  | code, slots + 1, acc =>
    if code = 0xFFFF then acc
    else gif_lzw_walk table pixels (table code) slots (pixels code :: acc)

/-- The per-pixel compositor write (body of the flush loop of
gif_decode_lzw): a transparent pixel writes the background palette entry when
the disposal method is 2 and leaves the canvas untouched otherwise; an opaque
pixel writes the three palette bytes of its index. `dest` is the byte offset
of the pixel in the output canvas. -/
def gif_composite_pixel (palette : Nat → Nat) (has_transparency transparent_index
    disposal_method background_index pixel_index dest : Nat)
    (frame : Nat → Nat) : Nat → Nat :=
  if has_transparency ≠ 0 ∧ pixel_index = transparent_index then
    if disposal_method = 2 then
      fun k =>
        if k = dest then palette (background_index * 3)
        else if k = dest + 1 then palette (background_index * 3 + 1)
        else if k = dest + 2 then palette (background_index * 3 + 2)
        else frame k
    else frame
  else
    fun k =>
      if k = dest then palette (pixel_index * 3)
      else if k = dest + 1 then palette (pixel_index * 3 + 1)
      else if k = dest + 2 then palette (pixel_index * 3 + 2)
      else frame k

/-- The flush loop of gif_decode_lzw, writing columns `i, i+1, ...` while
`k` counts the remaining columns: column `x` takes the palette index
`line x` and lands at canvas byte offset `rowBase + 3 * x`. -/
def gif_flush_row_go (palette line : Nat → Nat) (has_transparency transparent_index
    disposal_method background_index rowBase : Nat) :
    Nat → Nat → (Nat → Nat) → Nat → Nat
  | 0, _, frame => frame
  | k + 1, i, frame =>
    gif_flush_row_go palette line has_transparency transparent_index disposal_method
      background_index rowBase k (i + 1)
      (gif_composite_pixel palette has_transparency transparent_index disposal_method
        background_index (line i) (rowBase + 3 * i) frame)

/-- Flush one completed line of `width` palette indices to the canvas,
starting at canvas byte offset `rowBase` (the C computes `rowBase` as
`((frame_y_off + y_draw) * canvas_width + frame_x_off) * 3`). -/
def gif_flush_row (palette line : Nat → Nat) (has_transparency transparent_index
    disposal_method background_index rowBase width : Nat) (frame : Nat → Nat) : Nat → Nat :=
  gif_flush_row_go palette line has_transparency transparent_index disposal_method
    background_index rowBase width 0 frame

/-- Interlace pass parameters: starting row offsets of the four passes. -/
def interlaced_line_offset : List Nat := [0, 4, 2, 1]

/-- Interlace pass parameters: row strides of the four passes. -/
def interlaced_line_stride : List Nat := [8, 8, 4, 2]

/-- The interlace advancement loop of gif_decode_lzw: from pass `pass` and
per-pass line index `idx`, compute the draw row; while it falls at or beyond
the frame height and passes remain, move to the next pass with the index
reset to 0. Returns the final pass, index and draw row. -/
def gif_interlace_advance (fh : Nat) (pass idx : Nat) : Nat × Nat × Nat :=
  if fh ≤ interlaced_line_offset.getD pass 0 + idx * interlaced_line_stride.getD pass 0
      ∧ pass < 3 then
    gif_interlace_advance fh (pass + 1) 0
  else
    (pass, idx, interlaced_line_offset.getD pass 0 + idx * interlaced_line_stride.getD pass 0)
termination_by 3 - pass
decreasing_by omega

/-- The palette the context currently decodes with (the
`active_palette_colors` pointer). -/
def gif_active_palette (ctx : GIF_Context) : Nat → Nat :=
  if ctx.active_is_local then ctx.local_palette_colors else ctx.global_palette_colors

/-- Result of gif_decode_lzw: the returned error code together with the final
context and output canvas. -/
structure GIF_DecodeResult where
  res : Nat
  ctx : GIF_Context
  frame : Nat → Nat

/-- The local variables of gif_decode_lzw that survive across loop iterations
and across the `goto init_codetable_safe`, together with the context and the
output canvas. -/
structure GIF_LzwState where
  code : Nat
  oldcode : Nat
  c : Nat
  codesize : Nat
  sMask : Nat
  nextcode : Nat
  nextlim : Nat
  ulBits : Nat
  bitnum : Nat
  current_pixel_idx : Nat
  current_line_idx : Nat
  interlaced_pass : Nat
  ctx : GIF_Context
  frame : Nat → Nat

/-- The end-of-iteration flush of gif_decode_lzw: when the line accumulator
holds at least `frame_width` bytes, compute the draw row (through the
interlace advance for interlaced frames), fail with Decode if an interlaced
mapping still falls outside the frame, otherwise write the first
`frame_width` accumulated indices through the compositor and reset the
accumulator index to 0. Returns false on the Decode failure. -/
def gif_lzw_flush_check (st : GIF_LzwState) : Bool × GIF_LzwState :=
  if st.ctx.frame_width ≤ st.current_pixel_idx then
    let interlaced := st.ctx.ucGIFBits &&& 0x40 ≠ 0
    let adv := if interlaced then
        gif_interlace_advance st.ctx.frame_height st.interlaced_pass st.current_line_idx
      else (st.interlaced_pass, st.current_line_idx, st.current_line_idx)
    if interlaced ∧ st.ctx.frame_height ≤ adv.2.2 then
      (false, { st with ctx := gif_report_error st.ctx GIF_ERROR_DECODE })
    else
      let rowBase := (st.ctx.frame_y_off + adv.2.2) * st.ctx.canvas_width * 3
        + st.ctx.frame_x_off * 3
      let frame := gif_flush_row (gif_active_palette st.ctx) st.ctx.scratch_line_buffer
        st.ctx.has_transparency st.ctx.transparent_index st.ctx.disposal_method
        st.ctx.background_index rowBase st.ctx.frame_width st.frame
      (true, { st with
        frame := frame,
        interlaced_pass := adv.1,
        current_line_idx := adv.2.1 + 1,
        current_pixel_idx := 0 })
  else (true, st)

/-- The safe-mode decode loop of gif_decode_lzw. The Bool phase is true at
the `init_codetable_safe` label (initial code-table setup plus handling of
the first code, re-entered on every clear code) and false at the head of the
`while (code != eoi_code)` loop. Fuel exhaustion yields the pseudo-result
99. -/
def gif_decode_loop (clear_code eoi_code : Nat) : Nat → Bool → GIF_LzwState → GIF_DecodeResult
  | 0, _, st => ⟨99, st.ctx, st.frame⟩
  | fuel + 1, true, st =>
    let codesize := st.ctx.lzw_code_start_size + 1
    let sMask := 2 ^ codesize - 1
    let nextcode := eoi_code + 1
    let nextlim := 2 ^ codesize
    let ctx := { st.ctx with
      scratch_lzw_table := fun j =>
        if clear_code ≤ j ∧ j < GIF_LZW_TABLE_ENTRIES then 0xFFFF
        else st.ctx.scratch_lzw_table j }
    let g1 := gif_get_lzw_code codesize sMask eoi_code st.ulBits 0 ctx
    let g2 := if g1.1 = clear_code then
        gif_get_lzw_code codesize sMask eoi_code g1.2.1 g1.2.2.1 g1.2.2.2
      else g1
    let code := g2.1
    let ctx := g2.2.2.2
    if GIF_LZW_TABLE_ENTRIES ≤ code then
      ⟨GIF_ERROR_DECODE, gif_report_error ctx GIF_ERROR_DECODE, st.frame⟩
    else
      let expansion := gif_lzw_walk ctx.scratch_lzw_table ctx.scratch_lzw_pixels
        code GIF_MAX_WIDTH []
      let ctx := { ctx with
        scratch_line_buffer := writeListAt ctx.scratch_line_buffer 0 expansion }
      gif_decode_loop clear_code eoi_code fuel false
        { st with
          code := code, oldcode := code, c := code,
          codesize := codesize, sMask := sMask, nextcode := nextcode, nextlim := nextlim,
          ulBits := g2.2.1, bitnum := g2.2.2.1,
          current_pixel_idx := st.current_pixel_idx + expansion.length,
          ctx := ctx }
  | fuel + 1, false, st =>
    if st.code = eoi_code then ⟨GIF_SUCCESS, st.ctx, st.frame⟩
    else
      let g := gif_get_lzw_code st.codesize st.sMask eoi_code st.ulBits st.bitnum st.ctx
      let code := g.1
      let st : GIF_LzwState := { st with ulBits := g.2.1, bitnum := g.2.2.1, ctx := g.2.2.2 }
      if code = clear_code then
        gif_decode_loop clear_code eoi_code fuel true st
      else if code = eoi_code then
        gif_decode_loop clear_code eoi_code fuel false { st with code := code }
      else
        let expansion := gif_lzw_walk st.ctx.scratch_lzw_table st.ctx.scratch_lzw_pixels
          code GIF_MAX_WIDTH []
        let st : GIF_LzwState := { st with
          ctx := { st.ctx with
            scratch_line_buffer := writeListAt st.ctx.scratch_line_buffer
              st.current_pixel_idx expansion },
          current_pixel_idx := st.current_pixel_idx + expansion.length }
        let st : GIF_LzwState :=
          if st.nextcode < GIF_LZW_TABLE_ENTRIES then
            let table := fun j =>
              if j = st.nextcode then st.oldcode else st.ctx.scratch_lzw_table j
            let px1 := fun j =>
              if j = st.nextcode then st.c else st.ctx.scratch_lzw_pixels j
            let v := px1 code
            { st with
              ctx := { st.ctx with
                scratch_lzw_table := table,
                scratch_lzw_pixels := fun j =>
                  if j = GIF_LZW_TABLE_ENTRIES + st.nextcode then v else px1 j },
              c := v }
          else st
        let st : GIF_LzwState := { st with nextcode := st.nextcode + 1 }
        let st : GIF_LzwState :=
          if st.nextlim ≤ st.nextcode ∧ st.codesize < GIF_MAX_CODE_SIZE then
            { st with
              codesize := st.codesize + 1,
              nextlim := st.nextlim * 2,
              sMask := st.nextlim * 2 - 1 }
          else st
        let fl := gif_lzw_flush_check st
        if !fl.1 then ⟨GIF_ERROR_DECODE, fl.2.ctx, fl.2.frame⟩
        else
          gif_decode_loop clear_code eoi_code fuel false { fl.2 with oldcode := code, code := code }

/-- gif_decode_lzw (safe mode): reset the sub-block buffer state, pull the
first sub-blocks, load the initial 32-bit window, set up the single-byte
dictionary entries, and run the decode loop from the init label. -/
def gif_decode_lzw (fuel : Nat) (ctx : GIF_Context) (frame : Nat → Nat) : GIF_DecodeResult :=
  let ctx := { ctx with lzw_read_offset := 0, lzw_data_size := 0, lzw_end_of_frame := false }
  let r := gif_get_more_lzw_data ctx
  if !r.1 then
    ⟨GIF_ERROR_EARLY_EOF, gif_report_error r.2 GIF_ERROR_EARLY_EOF, frame⟩
  else
    let ctx := r.2
    let ulBits := gif_read_u32_buf ctx.scratch_lzw_buffer 0
    let clear_code := (2 ^ ctx.lzw_code_start_size) % 65536
    let eoi_code := (clear_code + 1) % 65536
    let ctx := { ctx with
      scratch_lzw_pixels := fun j =>
        if j < clear_code then j
        else if GIF_LZW_TABLE_ENTRIES ≤ j ∧ j < GIF_LZW_TABLE_ENTRIES + clear_code then
          j - GIF_LZW_TABLE_ENTRIES
        else ctx.scratch_lzw_pixels j,
      scratch_lzw_table := fun j =>
        if j < clear_code then 0xFFFF else ctx.scratch_lzw_table j }
    gif_decode_loop clear_code eoi_code fuel true
      { code := 0, oldcode := 0, c := 0, codesize := 0, sMask := 0, nextcode := 0,
        nextlim := 0, ulBits := ulBits, bitnum := 0, current_pixel_idx := 0,
        current_line_idx := 0, interlaced_pass := 0, ctx := ctx, frame := frame }

/-- gif_init: validate parameters and scratch size, zero the context, read the
13-byte header block, check the GIF87a/GIF89a signature, record the logical
screen size, load the global color table when present, and remember the
position where the animation starts. The C NULL-pointer checks have no
counterpart for Lean values; the empty-input check remains. -/
def gif_init (data : List Nat) (scratch_buffer_size : Nat) : Nat × GIF_Context :=
  if data.length = 0 then
    (GIF_ERROR_INVALID_PARAM, gif_report_error gif_zero_context GIF_ERROR_INVALID_PARAM)
  else if scratch_buffer_size < GIF_SCRATCH_BUFFER_REQUIRED_SIZE then
    (GIF_ERROR_BUFFER_TOO_SMALL, gif_report_error gif_zero_context GIF_ERROR_BUFFER_TOO_SMALL)
  else
    let ctx := { gif_zero_context with
      gif_data := data, gif_size := data.length, current_pos := 0, loop_count := -1 }
    let rb := gif_read_bytes_internal ctx 13
    if rb.1 < 13 then
      (GIF_ERROR_EARLY_EOF, gif_report_error rb.2.2 GIF_ERROR_EARLY_EOF)
    else
      let file_buf := rb.2.1
      let ctx := rb.2.2
      if ¬(file_buf.take 3 = [71, 73, 70]
          ∧ ((file_buf.drop 3).take 3 = [56, 55, 97] ∨ (file_buf.drop 3).take 3 = [56, 57, 97])) then
        (GIF_ERROR_BAD_FILE, gif_report_error ctx GIF_ERROR_BAD_FILE)
      else
        let ctx := { ctx with
          canvas_width := gif_read_u16_le file_buf 6,
          canvas_height := gif_read_u16_le file_buf 8 }
        let fdsz := file_buf.getD 10 0
        if fdsz &&& 0x80 ≠ 0 then
          let gct_size := 2 ^ ((fdsz &&& 0x07) + 1)
          if GIF_MAX_COLORS < gct_size then
            (GIF_ERROR_UNSUPPORTED_COLOR_DEPTH,
              gif_report_error ctx GIF_ERROR_UNSUPPORTED_COLOR_DEPTH)
          else
            let rg := gif_read_bytes_internal ctx (gct_size * 3)
            if rg.1 < gct_size * 3 then
              (GIF_ERROR_EARLY_EOF, gif_report_error rg.2.2 GIF_ERROR_EARLY_EOF)
            else
              let ctx := { rg.2.2 with
                global_palette_colors := writeListAt rg.2.2.global_palette_colors 0 rg.2.1 }
              (GIF_SUCCESS, { ctx with
                background_index := file_buf.getD 11 0,
                active_is_local := false,
                anim_start_pos := ctx.current_pos })
        else
          (GIF_SUCCESS, { ctx with
            background_index := file_buf.getD 11 0,
            active_is_local := false,
            anim_start_pos := ctx.current_pos })

/-- Outcome of the block-scanning loop of gif_next_frame. -/
inductive GIF_ScanOutcome where
  | found : GIF_Context → GIF_ScanOutcome
  | finished : GIF_Context → GIF_ScanOutcome
  | failed : GIF_Context → GIF_ScanOutcome
  | fuel_out : GIF_Context → GIF_ScanOutcome

/-- The `while (current_pos < gif_size)` separator loop of gif_next_frame:
0x3B invokes the trailer decision (finish, or rewind and keep scanning), 0x21
reads an extension, 0x2C ends the scan at an image descriptor, anything else
reports BadFile and fails. -/
def gif_scan_to_image : Nat → GIF_Context → GIF_ScanOutcome
  | fuel, ctx =>
    if ctx.current_pos < ctx.gif_size then
      match fuel with
      | 0 => .fuel_out ctx
      | fuel + 1 =>
        let r := gif_read_byte_internal ctx
        if r.1 = 0x3B then
          match gif_trailer_step r.2.loop_count with
          | none => .finished r.2
          | some lc => gif_scan_to_image fuel (gif_rewind { r.2 with loop_count := lc })
        else if r.1 = 0x21 then gif_scan_to_image fuel (gif_read_ext r.2)
        else if r.1 = 0x2C then .found r.2
        else .failed (gif_report_error r.2 GIF_ERROR_BAD_FILE)
    else .finished ctx

/-- Result of gif_next_frame: the return value (1 frame, 0 finished, −1
error; −2 is the fuel-exhaustion pseudo-value of the model), the final
context and canvas, and the delay output parameter (written only when a frame
is produced). -/
structure GIF_FrameResult where
  ret : Int
  ctx : GIF_Context
  frame : Nat → Nat
  delay_ms : Option Nat

/-- The four u16-then-skip-2 pairs of gif_next_frame reading the image
descriptor rectangle into the frame fields. -/
def gif_parse_image_rect (ctx2 : GIF_Context) : GIF_Context :=
  let ctx2 := { ctx2 with frame_x_off := gif_read_u16_le ctx2.gif_data ctx2.current_pos }
  let ctx2 := gif_skip_bytes_internal ctx2 2
  let ctx2 := { ctx2 with frame_y_off := gif_read_u16_le ctx2.gif_data ctx2.current_pos }
  let ctx2 := gif_skip_bytes_internal ctx2 2
  let ctx2 := { ctx2 with frame_width := gif_read_u16_le ctx2.gif_data ctx2.current_pos }
  let ctx2 := gif_skip_bytes_internal ctx2 2
  let ctx2 := { ctx2 with frame_height := gif_read_u16_le ctx2.gif_data ctx2.current_pos }
  gif_skip_bytes_internal ctx2 2

/-- The local-color-table block of gif_next_frame: when bit 7 of the image
descriptor's packed byte is set, validate the table size, read it into the
local palette and make it the active palette; otherwise revert to the global
palette. Returns the status together with the context. -/
def gif_read_frame_palette (ctx3 : GIF_Context) (fisrz : Nat) : Nat × GIF_Context :=
  if fisrz &&& 0x80 ≠ 0 then
    let lct_size := 2 ^ ((fisrz &&& 0x07) + 1)
    if GIF_MAX_COLORS < lct_size then
      (GIF_ERROR_UNSUPPORTED_COLOR_DEPTH,
        gif_report_error ctx3 GIF_ERROR_UNSUPPORTED_COLOR_DEPTH)
    else
      let rb := gif_read_bytes_internal ctx3 (lct_size * 3)
      if rb.1 < lct_size * 3 then
        (GIF_ERROR_EARLY_EOF, gif_report_error rb.2.2 GIF_ERROR_EARLY_EOF)
      else
        (GIF_SUCCESS, { rb.2.2 with
          local_palette_colors := writeListAt rb.2.2.local_palette_colors 0 rb.2.1,
          active_is_local := true })
  else (GIF_SUCCESS, { ctx3 with active_is_local := false })

/-- The tail of gif_next_frame once the scan has found an image descriptor:
read and validate the frame rectangle, read the packed byte and the optional
local color table, read the minimum LZW code size, decode the frame, and
return 1 with the frame delay on success. -/
def gif_next_frame_image (fuel : Nat) (ctx2 : GIF_Context) (frame : Nat → Nat) :
    GIF_FrameResult :=
  if ctx2.gif_size ≤ ctx2.current_pos then ⟨0, ctx2, frame, none⟩
  else
    let ctx2 := gif_parse_image_rect ctx2
    if ctx2.frame_width = 0 ∨ ctx2.frame_height = 0 then
      ⟨-1, gif_report_error ctx2 GIF_ERROR_INVALID_FRAME_DIMENSIONS, frame, none⟩
    else if ctx2.canvas_width < ctx2.frame_x_off + ctx2.frame_width
        ∨ ctx2.canvas_height < ctx2.frame_y_off + ctx2.frame_height then
      ⟨-1, gif_report_error ctx2 GIF_ERROR_INVALID_FRAME_DIMENSIONS, frame, none⟩
    else
      let r := gif_read_byte_internal ctx2
      let lct := gif_read_frame_palette { r.2 with ucGIFBits := r.1 } r.1
      if lct.1 ≠ GIF_SUCCESS then ⟨-1, lct.2, frame, none⟩
      else
        let r2 := gif_read_byte_internal lct.2
        let d := gif_decode_lzw fuel { r2.2 with lzw_code_start_size := r2.1 } frame
        if d.res ≠ GIF_SUCCESS then
          ⟨-1, gif_report_error d.ctx d.res, d.frame, none⟩
        else
          ⟨1, d.ctx, d.frame, some d.ctx.frame_delay_ms⟩

/-- gif_next_frame: trailer decision when the cursor is already at the end of
the input, scan to the next image descriptor, then process the image block
(gif_next_frame_image). -/
def gif_next_frame (fuel : Nat) (ctx : GIF_Context) (frame : Nat → Nat) : GIF_FrameResult :=
  let entry : Option GIF_Context :=
    if ctx.gif_size ≤ ctx.current_pos then
      match gif_trailer_step ctx.loop_count with
      | none => none
      | some lc => some (gif_rewind { ctx with loop_count := lc })
    else some ctx
  match entry with
  | none => ⟨0, ctx, frame, none⟩
  | some ctx =>
    match gif_scan_to_image fuel ctx with
    | .finished ctx2 => ⟨0, ctx2, frame, none⟩
    | .failed ctx2 => ⟨-1, ctx2, frame, none⟩
    | .fuel_out ctx2 => ⟨-2, ctx2, frame, none⟩
    | .found ctx2 => gif_next_frame_image fuel ctx2 frame

-- Concrete inputs used to settle the claims.

/-- Scenario 1 of the spec: minimal 1×1 GIF89a, global palette
{black, white}, one image, min-code-size 2, LZW codes clear-1-end, no
NETSCAPE extension. -/
def gif_bytes_minimal : List Nat :=
  [0x47, 0x49, 0x46, 0x38, 0x39, 0x61,
   0x01, 0x00, 0x01, 0x00, 0x80, 0x00, 0x00,
   0, 0, 0, 255, 255, 255,
   0x2C, 0, 0, 0, 0, 0x01, 0x00, 0x01, 0x00, 0x00,
   0x02,
   0x02, 0x4C, 0x01,
   0x00,
   0x3B]

/-- A 2×2 frame whose LZW stream ends (END code) after a single emitted
pixel: codes clear, 1, end. -/
def gif_bytes_early_end : List Nat :=
  [0x47, 0x49, 0x46, 0x38, 0x39, 0x61,
   0x02, 0x00, 0x02, 0x00, 0x80, 0x00, 0x00,
   0, 0, 0, 255, 255, 255,
   0x2C, 0, 0, 0, 0, 0x02, 0x00, 0x02, 0x00, 0x00,
   0x02,
   0x02, 0x4C, 0x01,
   0x00,
   0x3B]

/-- A 2×2 frame whose LZW stream pulls the code 7 while next_code is 6
(min-code-size 2, codes clear, 1, 7, end): 7 exceeds next_code and refers to
an unset dictionary entry. -/
def gif_bytes_bad_code : List Nat :=
  [0x47, 0x49, 0x46, 0x38, 0x39, 0x61,
   0x02, 0x00, 0x02, 0x00, 0x80, 0x00, 0x00,
   0, 0, 0, 255, 255, 255,
   0x2C, 0, 0, 0, 0, 0x02, 0x00, 0x02, 0x00, 0x00,
   0x02,
   0x02, 0xCC, 0x0B,
   0x00,
   0x3B]

/-- A 2×5 frame (palette entries i = (i,i,i)) whose LZW stream
clear, 0, 1, 6, 7, 2, 8, 1, 1, end makes the dictionary entry 8 (a 3-byte
string 0,0,0) expand while the line accumulator already holds 1 byte, so the
expansion crosses the row boundary. -/
def gif_bytes_long_expansion : List Nat :=
  [0x47, 0x49, 0x46, 0x38, 0x39, 0x61,
   0x02, 0x00, 0x05, 0x00, 0x81, 0x00, 0x00,
   0, 0, 0, 1, 1, 1, 2, 2, 2, 3, 3, 3,
   0x2C, 0, 0, 0, 0, 0x02, 0x00, 0x05, 0x00, 0x00,
   0x02,
   0x05, 0x44, 0x7C, 0x82, 0x11, 0x05,
   0x00,
   0x3B]

/-- A 1×1 one-frame animation with a NETSCAPE application extension whose
stored loop count is 0. -/
def gif_bytes_loop_zero : List Nat :=
  [0x47, 0x49, 0x46, 0x38, 0x39, 0x61,
   0x01, 0x00, 0x01, 0x00, 0x80, 0x00, 0x00,
   0, 0, 0, 255, 255, 255,
   0x21, 0xFF, 0x0B, 78, 69, 84, 83, 67, 65, 80, 69, 50, 46, 48,
   0x03, 0x01, 0x00, 0x00,
   0x00,
   0x2C, 0, 0, 0, 0, 0x01, 0x00, 0x01, 0x00, 0x00,
   0x02,
   0x02, 0x4C, 0x01,
   0x00,
   0x3B]

/-- A two-frame 2×1 GIF: a graphic-control extension (disposal 2,
transparency on, transparent index 0, delay 0) precedes only the first frame
(pixels 1,1); the second frame (pixels 0,1) has no graphic-control extension.
Background index is 1 (white). -/
def gif_bytes_two_frames : List Nat :=
  [0x47, 0x49, 0x46, 0x38, 0x39, 0x61,
   0x02, 0x00, 0x01, 0x00, 0x80, 0x01, 0x00,
   0, 0, 0, 255, 255, 255,
   0x21, 0xF9, 0x04, 0x09, 0x00, 0x00, 0x00, 0x00,
   0x2C, 0, 0, 0, 0, 0x02, 0x00, 0x01, 0x00, 0x00,
   0x02,
   0x02, 0x4C, 0x0A,
   0x00,
   0x2C, 0, 0, 0, 0, 0x02, 0x00, 0x01, 0x00, 0x00,
   0x02,
   0x02, 0x44, 0x0A,
   0x00,
   0x3B]

/-- Context initialized from the minimal 1×1 GIF. -/
def gif_ctx_minimal : GIF_Context := (gif_init gif_bytes_minimal 20000).2

/-- First gif_next_frame call on the minimal GIF (canvas bytes start as 7 to
make untouched bytes visible). -/
def gif_run_minimal_1 : GIF_FrameResult := gif_next_frame 200 gif_ctx_minimal (fun _ => 7)

/-- Second gif_next_frame call on the minimal GIF. -/
def gif_run_minimal_2 : GIF_FrameResult :=
  gif_next_frame 200 gif_run_minimal_1.ctx gif_run_minimal_1.frame

/-- gif_next_frame on the 2×2 frame whose LZW stream ends early. -/
def gif_run_early_end : GIF_FrameResult :=
  gif_next_frame 200 (gif_init gif_bytes_early_end 20000).2 (fun _ => 7)

/-- gif_next_frame on the 2×2 frame containing the invalid code 7. -/
def gif_run_bad_code : GIF_FrameResult :=
  gif_next_frame 200 (gif_init gif_bytes_bad_code 20000).2 (fun _ => 7)

/-- gif_next_frame on the 2×5 frame with the row-crossing expansion. -/
def gif_run_long_expansion : GIF_FrameResult :=
  gif_next_frame 200 (gif_init gif_bytes_long_expansion 20000).2 (fun _ => 7)

/-- First gif_next_frame call on the loop-count-0 animation. -/
def gif_run_loop_zero_1 : GIF_FrameResult :=
  gif_next_frame 200 (gif_init gif_bytes_loop_zero 20000).2 (fun _ => 7)

/-- Second gif_next_frame call on the loop-count-0 animation. -/
def gif_run_loop_zero_2 : GIF_FrameResult :=
  gif_next_frame 200 gif_run_loop_zero_1.ctx gif_run_loop_zero_1.frame

/-- First gif_next_frame call on the two-frame GIF. -/
def gif_run_two_frames_1 : GIF_FrameResult :=
  gif_next_frame 200 (gif_init gif_bytes_two_frames 20000).2 (fun _ => 7)

/-- Second gif_next_frame call on the two-frame GIF (the frame without a
graphic-control extension). -/
def gif_run_two_frames_2 : GIF_FrameResult :=
  gif_next_frame 200 gif_run_two_frames_1.ctx gif_run_two_frames_1.frame

/-- C9: the stream reader preserves `current_pos ≤ gif_size`: a single-byte
read advances by exactly the consumed count (1 in bounds, 0 at the end), an
`n`-byte read advances by exactly `min len (gif_size - current_pos)` bytes,
and a skip saturates at the end of the input without ever reporting an
error. -/
theorem gif_c9_stream_reader_invariant (ctx : GIF_Context) (len : Nat)
    (h : ctx.current_pos ≤ ctx.gif_size) :
    ((gif_read_byte_internal ctx).2.current_pos
        = ctx.current_pos + (if ctx.current_pos < ctx.gif_size then 1 else 0)
      ∧ (gif_read_byte_internal ctx).2.current_pos ≤ ctx.gif_size)
    ∧ ((gif_read_bytes_internal ctx len).1 = min len (ctx.gif_size - ctx.current_pos)
      ∧ (gif_read_bytes_internal ctx len).2.2.current_pos
          = ctx.current_pos + (gif_read_bytes_internal ctx len).1
      ∧ (gif_read_bytes_internal ctx len).2.2.current_pos ≤ ctx.gif_size)
    ∧ ((gif_skip_bytes_internal ctx len).current_pos = min (ctx.current_pos + len) ctx.gif_size
      ∧ (gif_skip_bytes_internal ctx len).current_pos ≤ ctx.gif_size
      ∧ (gif_skip_bytes_internal ctx len).reported = ctx.reported) := by
  unfold gif_read_byte_internal gif_read_bytes_internal gif_skip_bytes_internal gif_report_error
  refine ⟨⟨?_, ?_⟩, ⟨?_, ?_, ?_⟩, ⟨?_, ?_, ?_⟩⟩ <;> split <;> simp <;> omega

/-- Witness for C9 at a concrete context and length. -/
theorem gif_c9_stream_reader_invariant_witness :
    gif_ctx_example.current_pos ≤ gif_ctx_example.gif_size
    ∧ ((gif_read_bytes_internal gif_ctx_example 5).1
        = min 5 (gif_ctx_example.gif_size - gif_ctx_example.current_pos)
      ∧ (gif_skip_bytes_internal gif_ctx_example 5).current_pos
        = min (gif_ctx_example.current_pos + 5) gif_ctx_example.gif_size) :=
  ⟨by decide, (gif_c9_stream_reader_invariant gif_ctx_example 5 (by decide)).2.1.1,
    (gif_c9_stream_reader_invariant gif_ctx_example 5 (by decide)).2.2.1⟩

/-- C10: a single-byte read at or beyond the end of the input returns the
value 0, leaves the cursor unchanged, and notifies the error callback with
EarlyEof. -/
theorem gif_c10_read_byte_at_eof (ctx : GIF_Context)
    (h : ctx.gif_size ≤ ctx.current_pos) :
    (gif_read_byte_internal ctx).1 = 0
    ∧ (gif_read_byte_internal ctx).2.current_pos = ctx.current_pos
    ∧ (gif_read_byte_internal ctx).2.reported = ctx.reported ++ [GIF_ERROR_EARLY_EOF] := by
  unfold gif_read_byte_internal gif_report_error
  split
  · omega
  · simp

/-- Witness for C10 at a concrete context. -/
theorem gif_c10_read_byte_at_eof_witness :
    gif_ctx_eof_example.gif_size ≤ gif_ctx_eof_example.current_pos
    ∧ (gif_read_byte_internal gif_ctx_eof_example).1 = 0
    ∧ (gif_read_byte_internal gif_ctx_eof_example).2.current_pos
        = gif_ctx_eof_example.current_pos :=
  ⟨by decide, (gif_c10_read_byte_at_eof gif_ctx_eof_example (by decide)).1,
    (gif_c10_read_byte_at_eof gif_ctx_eof_example (by decide)).2.1⟩

theorem gif_plays_until_done_nat (k : Nat) :
    gif_plays_until_done (k + 2) (k : Int) = some (k + 1) := by
  induction k with
  | zero => decide
  | succ n ih =>
    have hstep : gif_trailer_step ((n + 1 : Nat) : Int) = some ((n : Nat) : Int) := by
      unfold gif_trailer_step
      have h1 : ¬((n + 1 : Nat) : Int) = -1 := by omega
      have h2 : ((n + 1 : Nat) : Int) > 0 := by omega
      simp [h1, h2]
    show gif_plays_until_done (n + 2 + 1) ((n + 1 : Nat) : Int) = some (n + 2)
    rw [gif_plays_until_done, hstep]
    simp [ih]

-- Preservation lemmas: the graphic-control state (disposal_method,
-- has_transparency) is only ever written by gif_read_graphic_control_ext.

@[simp] theorem gif_report_error_disposal (ctx : GIF_Context) (e : Nat) :
    (gif_report_error ctx e).disposal_method = ctx.disposal_method := rfl

@[simp] theorem gif_report_error_transparency (ctx : GIF_Context) (e : Nat) :
    (gif_report_error ctx e).has_transparency = ctx.has_transparency := rfl

@[simp] theorem gif_skip_bytes_internal_disposal (ctx : GIF_Context) (len : Nat) :
    (gif_skip_bytes_internal ctx len).disposal_method = ctx.disposal_method := by
  unfold gif_skip_bytes_internal; split <;> rfl

@[simp] theorem gif_skip_bytes_internal_transparency (ctx : GIF_Context) (len : Nat) :
    (gif_skip_bytes_internal ctx len).has_transparency = ctx.has_transparency := by
  unfold gif_skip_bytes_internal; split <;> rfl

@[simp] theorem gif_read_byte_internal_disposal (ctx : GIF_Context) :
    (gif_read_byte_internal ctx).2.disposal_method = ctx.disposal_method := by
  unfold gif_read_byte_internal; split <;> rfl

@[simp] theorem gif_read_byte_internal_transparency (ctx : GIF_Context) :
    (gif_read_byte_internal ctx).2.has_transparency = ctx.has_transparency := by
  unfold gif_read_byte_internal; split <;> rfl

@[simp] theorem gif_read_bytes_internal_disposal (ctx : GIF_Context) (len : Nat) :
    (gif_read_bytes_internal ctx len).2.2.disposal_method = ctx.disposal_method := rfl

@[simp] theorem gif_read_bytes_internal_transparency (ctx : GIF_Context) (len : Nat) :
    (gif_read_bytes_internal ctx len).2.2.has_transparency = ctx.has_transparency := rfl

@[simp] theorem gif_discard_sub_blocks_go_disposal (fuel : Nat) (ctx : GIF_Context) :
    (gif_discard_sub_blocks_go fuel ctx).disposal_method = ctx.disposal_method := by
  induction fuel generalizing ctx with
  | zero => rfl
  | succ n ih => rw [gif_discard_sub_blocks_go]; split_ifs <;> simp [ih]

@[simp] theorem gif_discard_sub_blocks_go_transparency (fuel : Nat) (ctx : GIF_Context) :
    (gif_discard_sub_blocks_go fuel ctx).has_transparency = ctx.has_transparency := by
  induction fuel generalizing ctx with
  | zero => rfl
  | succ n ih => rw [gif_discard_sub_blocks_go]; split_ifs <;> simp [ih]

@[simp] theorem gif_discard_sub_blocks_disposal (ctx : GIF_Context) :
    (gif_discard_sub_blocks ctx).disposal_method = ctx.disposal_method := by
  unfold gif_discard_sub_blocks; simp

@[simp] theorem gif_discard_sub_blocks_transparency (ctx : GIF_Context) :
    (gif_discard_sub_blocks ctx).has_transparency = ctx.has_transparency := by
  unfold gif_discard_sub_blocks; simp

theorem gif_read_application_ext_gc (ctx : GIF_Context) :
    (gif_read_application_ext ctx).disposal_method = ctx.disposal_method
    ∧ (gif_read_application_ext ctx).has_transparency = ctx.has_transparency := by
  simp only [gif_read_application_ext]
  split_ifs <;> simp

theorem gif_read_ext_gc (ctx : GIF_Context)
    (h : ctx.gif_data.getD ctx.current_pos 0 ≠ 0xF9) :
    (gif_read_ext ctx).disposal_method = ctx.disposal_method
    ∧ (gif_read_ext ctx).has_transparency = ctx.has_transparency := by
  unfold gif_read_ext
  have hlabel : (gif_read_byte_internal ctx).1 ≠ 0xF9 := by
    unfold gif_read_byte_internal
    split
    · exact h
    · simp
  rw [if_neg hlabel]
  split
  · exact ⟨by rw [(gif_read_application_ext_gc _).1]; simp,
      by rw [(gif_read_application_ext_gc _).2]; simp⟩
  · simp

theorem gif_interlace_advance_spec (fh : Nat) (n : Nat) :
    ∀ pass idx, 3 - pass ≤ n → pass ≤ 3 →
      ((gif_interlace_advance fh pass idx).2.2
          = interlaced_line_offset.getD (gif_interlace_advance fh pass idx).1 0
            + (gif_interlace_advance fh pass idx).2.1
              * interlaced_line_stride.getD (gif_interlace_advance fh pass idx).1 0)
      ∧ ((gif_interlace_advance fh pass idx).1 = pass
            ∧ (gif_interlace_advance fh pass idx).2.1 = idx
          ∨ pass < (gif_interlace_advance fh pass idx).1
            ∧ (gif_interlace_advance fh pass idx).2.1 = 0)
      ∧ (fh ≤ (gif_interlace_advance fh pass idx).2.2 → (gif_interlace_advance fh pass idx).1 = 3)
      ∧ pass ≤ (gif_interlace_advance fh pass idx).1
      ∧ (gif_interlace_advance fh pass idx).1 ≤ 3 := by
  induction n with
  | zero =>
    intro pass idx hle hp
    have hp3 : pass = 3 := by omega
    subst hp3
    rw [gif_interlace_advance]
    have hc : ¬(fh ≤ interlaced_line_offset.getD 3 0 + idx * interlaced_line_stride.getD 3 0
        ∧ 3 < 3) := by omega
    rw [if_neg hc]
    refine ⟨rfl, Or.inl ⟨rfl, rfl⟩, ?_, Nat.le_refl 3, Nat.le_refl 3⟩
    intro _
    rfl
  | succ n ih =>
    intro pass idx hle hp
    rw [gif_interlace_advance]
    by_cases hc : fh ≤ interlaced_line_offset.getD pass 0 + idx * interlaced_line_stride.getD pass 0
        ∧ pass < 3
    · rw [if_pos hc]
      have h2 := ih (pass + 1) 0 (by omega) (by omega)
      refine ⟨h2.1, ?_, h2.2.2.1, by omega, h2.2.2.2.2⟩
      rcases h2.2.1 with ⟨he, hi⟩ | ⟨hl, hi⟩
      · exact Or.inr ⟨by omega, hi⟩
      · exact Or.inr ⟨by omega, hi⟩
    · rw [if_neg hc]
      refine ⟨rfl, Or.inl ⟨rfl, rfl⟩, ?_, Nat.le_refl pass, hp⟩
      intro hy
      simp only at hy
      omega

/-- C6: the interlace mapper of gif_decode_lzw. From pass `pass` and per-pass
row index `idx`, the returned draw row equals start[p] + i·stride[p] for the
returned pass p and index i (the decoder then writes the completed line at
canvas row y_off + that value); whenever the mapper advances past a pass the
per-pass index is reset to 0; and a mapping that still reaches or exceeds the
frame height can only be returned once the final pass 3 is reached, which is
exactly the condition under which gif_decode_lzw fails with Decode. -/
theorem gif_c6_interlace_mapping (fh pass idx : Nat) (hp : pass ≤ 3) :
    ((gif_interlace_advance fh pass idx).2.2
        = interlaced_line_offset.getD (gif_interlace_advance fh pass idx).1 0
          + (gif_interlace_advance fh pass idx).2.1
            * interlaced_line_stride.getD (gif_interlace_advance fh pass idx).1 0)
    ∧ ((gif_interlace_advance fh pass idx).1 = pass
          ∧ (gif_interlace_advance fh pass idx).2.1 = idx
        ∨ pass < (gif_interlace_advance fh pass idx).1
          ∧ (gif_interlace_advance fh pass idx).2.1 = 0)
    ∧ (fh ≤ (gif_interlace_advance fh pass idx).2.2 → (gif_interlace_advance fh pass idx).1 = 3)
    ∧ (gif_interlace_advance fh pass idx).1 ≤ 3 :=
  ⟨(gif_interlace_advance_spec fh 3 pass idx (by omega) hp).1,
    (gif_interlace_advance_spec fh 3 pass idx (by omega) hp).2.1,
    (gif_interlace_advance_spec fh 3 pass idx (by omega) hp).2.2.1,
    (gif_interlace_advance_spec fh 3 pass idx (by omega) hp).2.2.2.2⟩

/-- Witness for C6 at the concrete instance frame_height 8, pass 0, row
index 1 (draw row 8 exhausts pass 0 and moves to pass 1, row 4). -/
theorem gif_c6_interlace_mapping_witness :
    (0 : Nat) ≤ 3
    ∧ ((gif_interlace_advance 8 0 1).2.2
        = interlaced_line_offset.getD (gif_interlace_advance 8 0 1).1 0
          + (gif_interlace_advance 8 0 1).2.1
            * interlaced_line_stride.getD (gif_interlace_advance 8 0 1).1 0)
    ∧ (8 ≤ (gif_interlace_advance 8 0 1).2.2 → (gif_interlace_advance 8 0 1).1 = 3) :=
  ⟨by decide, (gif_c6_interlace_mapping 8 0 1 (by decide)).1,
    (gif_c6_interlace_mapping 8 0 1 (by decide)).2.2.1⟩

theorem gif_composite_pixel_other (palette : Nat → Nat) (hT tI dM bI pIdx dest : Nat)
    (frame : Nat → Nat) (q : Nat) (hq : q ≠ dest ∧ q ≠ dest + 1 ∧ q ≠ dest + 2) :
    gif_composite_pixel palette hT tI dM bI pIdx dest frame q = frame q := by
  unfold gif_composite_pixel
  split_ifs <;> simp [hq.1, hq.2.1, hq.2.2]

theorem gif_composite_pixel_congr (palette : Nat → Nat) (hT tI dM bI pIdx dest : Nat)
    (frame1 frame2 : Nat → Nat) (q : Nat) (hq : frame1 q = frame2 q) :
    gif_composite_pixel palette hT tI dM bI pIdx dest frame1 q
      = gif_composite_pixel palette hT tI dM bI pIdx dest frame2 q := by
  unfold gif_composite_pixel
  split_ifs <;> simp only [hq]

theorem gif_flush_row_go_lower (palette line : Nat → Nat) (hT tI dM bI rowBase : Nat)
    (k : Nat) :
    ∀ i frame q, q < rowBase + 3 * i →
      gif_flush_row_go palette line hT tI dM bI rowBase k i frame q = frame q := by
  induction k with
  | zero => intro i frame q _; rfl
  | succ n ih =>
    intro i frame q hq
    rw [gif_flush_row_go]
    rw [ih (i + 1) _ q (by omega)]
    exact gif_composite_pixel_other palette hT tI dM bI (line i) (rowBase + 3 * i) frame q
      (by omega)

theorem gif_flush_row_go_at (palette line : Nat → Nat) (hT tI dM bI rowBase : Nat)
    (k : Nat) :
    ∀ i frame x j, i ≤ x → x < i + k → j < 3 →
      gif_flush_row_go palette line hT tI dM bI rowBase k i frame (rowBase + 3 * x + j)
        = gif_composite_pixel palette hT tI dM bI (line x) (rowBase + 3 * x) frame
            (rowBase + 3 * x + j) := by
  induction k with
  | zero => intro i frame x j h1 h2 _; omega
  | succ n ih =>
    intro i frame x j h1 h2 hj
    rw [gif_flush_row_go]
    by_cases hx : x = i
    · subst hx
      rw [gif_flush_row_go_lower palette line hT tI dM bI rowBase n (x + 1) _ _ (by omega)]
    · rw [ih (i + 1) _ x j (by omega) (by omega) hj]
      exact gif_composite_pixel_congr palette hT tI dM bI (line x) (rowBase + 3 * x) _ _ _
        (gif_composite_pixel_other palette hT tI dM bI (line i) (rowBase + 3 * i) frame _
          (by omega))

/-- C8: for every column x of a flushed line and byte j of its pixel, the
compositor of gif_decode_lzw writes as the claim states: with transparency on
and the line's palette index equal to the transparent index, the destination
receives the palette bytes of background_index when disposal_method = 2 and
is left untouched otherwise; in all other cases the destination receives the
three palette bytes of the pixel's index. -/
theorem gif_c8_compositor_cases (palette line frame : Nat → Nat)
    (hT tI dM bI rowBase w x j : Nat) (hx : x < w) (hj : j < 3) :
    ((hT ≠ 0 ∧ line x = tI ∧ dM = 2) →
      gif_flush_row palette line hT tI dM bI rowBase w frame (rowBase + 3 * x + j)
        = palette (bI * 3 + j))
    ∧ ((hT ≠ 0 ∧ line x = tI ∧ dM ≠ 2) →
      gif_flush_row palette line hT tI dM bI rowBase w frame (rowBase + 3 * x + j)
        = frame (rowBase + 3 * x + j))
    ∧ ((hT = 0 ∨ line x ≠ tI) →
      gif_flush_row palette line hT tI dM bI rowBase w frame (rowBase + 3 * x + j)
        = palette (line x * 3 + j)) := by
  have hbase : gif_flush_row palette line hT tI dM bI rowBase w frame (rowBase + 3 * x + j)
      = gif_composite_pixel palette hT tI dM bI (line x) (rowBase + 3 * x) frame
          (rowBase + 3 * x + j) :=
    gif_flush_row_go_at palette line hT tI dM bI rowBase w 0 frame x j (Nat.zero_le x)
      (by omega) hj
  rw [hbase]
  unfold gif_composite_pixel
  refine ⟨?_, ?_, ?_⟩
  · intro hcase
    rw [if_pos ⟨hcase.1, hcase.2.1⟩, if_pos hcase.2.2]
    interval_cases j <;> simp
  · intro hcase
    rw [if_pos ⟨hcase.1, hcase.2.1⟩, if_neg hcase.2.2]
  · intro hcase
    have hne : ¬(hT ≠ 0 ∧ line x = tI) := by
      rcases hcase with h0 | hne
      · intro hcon; exact hcon.1 h0
      · intro hcon; exact hne hcon.2
    rw [if_neg hne]
    interval_cases j <;> simp

/-- Witness for C8 at a concrete instance: palette k ↦ k, line of constant
index 5 with transparency on, transparent index 5 and disposal 2: byte 1 of
column 1 receives palette byte bI·3+1 = 7. -/
theorem gif_c8_compositor_cases_witness :
    (1 : Nat) < 2 ∧ (1 : Nat) < 3
    ∧ gif_flush_row (fun k => k) (fun _ => 5) 1 5 2 2 0 2 (fun _ => 9) (0 + 3 * 1 + 1)
        = (fun k : Nat => k) (2 * 3 + 1) :=
  ⟨by decide, by decide,
    (gif_c8_compositor_cases (fun k => k) (fun _ => 5) (fun _ => 9) 1 5 2 2 0 2 1 1
      (by decide) (by decide)).1 ⟨by decide, rfl, rfl⟩⟩

/-- C5 amended: the stored 16-bit loop-count value k is reinterpreted as a
signed 16-bit loop_count; for k < 32768 the trailer decision of
gif_next_frame finishes the animation after exactly k+1 playbacks (k trailer
rewinds): stored 0 plays once, stored k > 0 plays k+1 times. -/
theorem gif_c5_amended_loop_semantics (k : Nat) (h : k < 32768) :
    gif_plays_until_done (k + 2) (gif_int16_of_u16 k) = some (k + 1) := by
  have he : gif_int16_of_u16 k = (k : Int) := by
    unfold gif_int16_of_u16
    rw [if_pos h]
  rw [he]
  exact gif_plays_until_done_nat k

/-- Witness for C5 amended at the stored value 2: three playbacks. -/
theorem gif_c5_amended_loop_semantics_witness :
    (2 : Nat) < 32768 ∧ gif_plays_until_done (2 + 2) (gif_int16_of_u16 2) = some 3 :=
  ⟨by decide, gif_c5_amended_loop_semantics 2 (by decide)⟩

/-- C4 counterexample: in the two-frame GIF whose graphic-control extension
(disposal 2, transparency on, transparent index 0) precedes only the first
frame, the second frame (with no intervening extension) is nevertheless
decoded with that inherited state: its pixel of index 0 at canvas byte 0
receives the background palette entry 255 (the claim's disposal 0 and
disabled transparency would have written palette[0] = 0 there). -/
theorem gif_c4_gce_state_inherited :
    gif_run_two_frames_2.ret = 1 ∧ gif_run_two_frames_2.frame 0 = 255
    ∧ gif_run_two_frames_1.ctx.has_transparency = 1 :=
  ⟨rfl, rfl, rfl⟩

/-- C4 amended: a graphic-control extension's disposal_method and
has_transparency persist until the next graphic-control extension: reading
any other block (gif_read_ext on a label other than 0xF9) leaves both fields
unchanged, and concretely the second frame of the two-frame GIF is decoded
with the first frame's disposal 2 and transparency still in force. -/
theorem gif_c4_amended_state_persists :
    (∀ ctx : GIF_Context, ctx.gif_data.getD ctx.current_pos 0 ≠ 0xF9 →
      (gif_read_ext ctx).disposal_method = ctx.disposal_method
      ∧ (gif_read_ext ctx).has_transparency = ctx.has_transparency)
    ∧ gif_run_two_frames_2.ctx.disposal_method = 2
    ∧ gif_run_two_frames_2.ctx.has_transparency = 1 :=
  ⟨fun ctx h => gif_read_ext_gc ctx h, rfl, rfl⟩

/-- Witness for C4 amended: the preservation part applied at a concrete
context whose next byte is not 0xF9. -/
theorem gif_c4_amended_state_persists_witness :
    gif_ctx_example.gif_data.getD gif_ctx_example.current_pos 0 ≠ 0xF9
    ∧ (gif_read_ext gif_ctx_example).disposal_method = gif_ctx_example.disposal_method :=
  ⟨by decide, (gif_c4_amended_state_persists.1 gif_ctx_example (by decide)).1⟩

/-- C1: the decoder accepts the LZW code 7 pulled while next_code is 6 (an
unset dictionary entry beyond next_code): gif_next_frame returns 1 and no
error whatsoever is reported, while the claim requires GIF_ERROR_DECODE and
a -1 return. (In safe mode only the first code of a frame is validated; the
main loop expands whatever entry the code denotes, here one uninitialized
byte.) -/
theorem gif_c1_invalid_code_not_rejected :
    gif_run_bad_code.ret = 1 ∧ gif_run_bad_code.ctx.reported = [] :=
  ⟨rfl, rfl⟩

/-- C2: on the 2×2 frame whose LZW stream raises the END code after a single
emitted pixel (3 of the 4 frame pixels never produced), gif_next_frame
returns 1 and reports no error, while the claim requires a -1 return with
EarlyEof or Decode. (The safe-mode decode loop exits on the END code with
GIF_SUCCESS without comparing the emitted pixel count against
frame_width × frame_height.) -/
theorem gif_c2_early_end_reported_success :
    gif_run_early_end.ret = 1 ∧ gif_run_early_end.ctx.reported = [] :=
  ⟨rfl, rfl⟩

/-- C3 counterexample: on the minimal single-frame GIF without a NETSCAPE
extension, the second call of gif_next_frame does not return 0 (it returns 1
again: the default loop count -1 makes the trailer rewind and replay the
frame forever). -/
theorem gif_c3_second_call_not_zero : gif_run_minimal_2.ret ≠ 0 := by
  rw [show gif_run_minimal_2.ret = 1 from rfl]
  decide

/-- C3 amended: on the minimal single-frame GIF the first gif_next_frame call
returns 1 with delay_ms = 0, and the second call returns 1 again (the
animation is replayed, because without a NETSCAPE extension the loop count
defaults to -1 = infinite). -/
theorem gif_c3_amended_minimal_gif :
    gif_run_minimal_1.ret = 1 ∧ gif_run_minimal_1.delay_ms = some 0
    ∧ gif_run_minimal_2.ret = 1 :=
  ⟨rfl, rfl, rfl⟩

/-- C5 counterexample: a stored application-extension loop count of 0 does
not cause infinite playback: after the single playback of the one-frame
animation (first call returns 1, loop_count parsed as 0), the second call
returns 0 at the trailer. -/
theorem gif_c5_loop_zero_plays_once :
    gif_run_loop_zero_1.ret = 1 ∧ gif_run_loop_zero_1.ctx.loop_count = 0
    ∧ gif_run_loop_zero_2.ret = 0 :=
  ⟨rfl, rfl, rfl⟩

/-- C7: on the 2×5 frame where the dictionary entry 8 (the string 0,0,0)
expands while the line buffer already holds one pixel, the single flush
discards the expansion's last two pixels: the decoder still returns 1, and
canvas row 4 holds the palette-1 pixels that should have landed on row 5
(bytes 24 and 27 are 1 instead of the claim-implied 0). -/
theorem gif_c7_expansion_tail_discarded :
    gif_run_long_expansion.ret = 1 ∧ gif_run_long_expansion.frame 24 = 1
    ∧ gif_run_long_expansion.frame 27 = 1 :=
  ⟨rfl, rfl, rfl⟩
